import Mathlib

/-!
Shallow embedding of the GPML `math::Matrix<N>` container (Matrix.hpp),
instantiated at the element type `int` (modelled as `Int`; the C++
`N()` value-initialization of `int` is `0`).

The C++ object holds `_rows`, `_cols`, `_size` and a heap buffer
`N** _matrix` with `_rows` rows of `_cols` elements.  We model the buffer
as a total function `Nat → Nat → Int`; values outside the rectangle
`[0, rows) × [0, cols)` are junk and are never observed (every read in
the API is bounds-checked, and matrix comparison is element-wise inside
the shape, `Matrix.Eqv`).

Mutating members that can throw are modelled in state-passing style as
`Matrix → … → Matrix × Option MErr`: the first component is the state of
the receiver when the call returns or when the exception propagates, the
second the exception, if any.  A buffer access outside its allocation
(possible in `operator*=(const Matrix&)` and in the older header
revision's `operator+=`) is C++ undefined behaviour; it is flagged by the
distinguished error `MErr.undefinedBehavior` instead of being given a
meaning.
-/

namespace math

/-- Errors of the API. The C++ code throws `std::invalid_argument` with a
message; the constructors below stand for the distinct throw sites:
`rowOutOfRange`/`colOutOfRange` for the two messages of `at`/`set`,
`shapeMismatch` for `operator+=`/`operator-=`, `dimensionMismatch` for
`operator*=(const Matrix&)`.  `undefinedBehavior` marks an out-of-bounds
buffer access (no C++ exception: undefined behaviour). -/
inductive MErr where
  | rowOutOfRange
  | colOutOfRange
  | shapeMismatch
  | dimensionMismatch
  | undefinedBehavior
deriving DecidableEq, Repr

/-- `rowOutOfRange` and `colOutOfRange` are the spec's `OutOfRange`. -/
def MErr.isOutOfRange : MErr → Bool
  | .rowOutOfRange => true
  | .colOutOfRange => true
  | _ => false

deriving instance DecidableEq for Except

/-- The `math::Matrix<int>` object: fields `_rows`, `_cols`, `_size` and the
buffer, as a total function (see the header comment). -/
structure Matrix where
  rows : Nat
  cols : Nat
  size : Nat
  data : Nat → Nat → Int

/-- `Matrix(uint rows, uint cols, const N& fill)`: sets `_size = rows*cols`
and fills every element with `fill`. -/
def mkFill (rows cols : Nat) (fill : Int) : Matrix :=
  { rows := rows, cols := cols, size := rows * cols, data := fun _ _ => fill }

/-- `Matrix(uint size, const N& fill)`: delegates to `Matrix(size, size, fill)`. -/
def mkFillSq (size : Nat) (fill : Int) : Matrix :=
  mkFill size size fill

/-- `shape()`, i.e. `std::make_pair(_rows, _cols)`. -/
def shape (self : Matrix) : Nat × Nat :=
  (self.rows, self.cols)

/-- `N Matrix<N>::at(uint r, uint c) const`.  The C++ guard is
`r < 0 || r >= _rows` (then the same for `c`); `r < 0` is vacuous on an
unsigned, leaving `r >= _rows`. -/
def Matrix.at' (self : Matrix) (r c : Nat) : Except MErr Int :=
  if self.rows ≤ r then .error .rowOutOfRange
  else if self.cols ≤ c then .error .colOutOfRange
  else .ok (self.data r c)

/-- `void Matrix<N>::set(uint r, uint c, N val)`: same two guards as `at`,
then `_matrix[r][c] = val`. -/
def Matrix.set (self : Matrix) (r c : Nat) (v : Int) : Matrix × Option MErr :=
  if self.rows ≤ r then (self, some .rowOutOfRange)
  else if self.cols ≤ c then (self, some .colOutOfRange)
  else ({ self with data := fun r' c' => if r' = r ∧ c' = c then v else self.data r' c' },
        none)

/-- `Matrix<N>::operator=(const Matrix& m)`.  When the shapes agree the
buffer is reused and `_size` is NOT touched; otherwise the buffer is
reallocated and `_size`, `_rows`, `_cols` are taken from `m`.  In both
cases the elements inside the (new) shape are copied from `m`.  The
self-assignment guard `this != &m` is unobservable under value
semantics. -/
def massign (self m : Matrix) : Matrix :=
  if self.rows = m.rows ∧ self.cols = m.cols then
    { self with data := fun r c =>
        if r < self.rows ∧ c < self.cols then m.data r c else self.data r c }
  else
    { rows := m.rows, cols := m.cols, size := m.size,
      data := fun r c => if r < m.rows ∧ c < m.cols then m.data r c else 0 }

/-- `void Matrix<N>::T()`: returns at once when `_rows == 0 || _cols == 0`;
otherwise builds `Matrix t(_cols, _rows, 0)`, writes
`t._matrix[c][r] = _matrix[r][c]` for every in-shape `(r, c)` (this covers
all of `t`), and ends with `*this = t`. -/
def T (self : Matrix) : Matrix :=
  if self.rows = 0 ∨ self.cols = 0 then self
  else
    massign self
      { mkFill self.cols self.rows 0 with
        data := fun i j =>
          if i < self.cols ∧ j < self.rows then self.data j i else 0 }

/-- `Matrix<N>::operator+=(const Matrix& m)` (current header revision):
throws when `m._rows != _rows || m._cols != _cols`, otherwise adds `m`
element-wise over the receiver's shape. -/
def addAssign (self m : Matrix) : Matrix × Option MErr :=
  if m.rows ≠ self.rows ∨ m.cols ≠ self.cols then (self, some .shapeMismatch)
  else ({ self with data := fun r c =>
            if r < self.rows ∧ c < self.cols then self.data r c + m.data r c
            else self.data r c },
        none)

/-- `Matrix<N>::operator-=(const Matrix& m)`: as `operator+=`, with
element-wise subtraction. -/
def subAssign (self m : Matrix) : Matrix × Option MErr :=
  if m.rows ≠ self.rows ∨ m.cols ≠ self.cols then (self, some .shapeMismatch)
  else ({ self with data := fun r c =>
            if r < self.rows ∧ c < self.cols then self.data r c - m.data r c
            else self.data r c },
        none)

/-- `Matrix<N>::operator+=` of the OLDER header revision: its guard is
`m._rows != _rows && m._cols != _cols` (conjunction), so a mismatch in
only one dimension is not rejected and the element-wise loop runs over
the receiver's shape, reading `m._matrix[r][c]` there — an out-of-bounds
read (undefined behaviour) whenever that rectangle is non-empty and
exceeds `m`'s buffer. -/
def addAssignOld (self m : Matrix) : Matrix × Option MErr :=
  if m.rows ≠ self.rows ∧ m.cols ≠ self.cols then (self, some .shapeMismatch)
  else if 0 < self.rows * self.cols ∧ (m.rows < self.rows ∨ m.cols < self.cols) then
    (self, some .undefinedBehavior)
  else ({ self with data := fun r c =>
            if r < self.rows ∧ c < self.cols then self.data r c + m.data r c
            else self.data r c },
        none)

/-- `Matrix<N>::operator*=(const N& scal)`: multiplies every in-shape
element by the scalar; never throws. -/
def mulScalarAssign (self : Matrix) (s : Int) : Matrix :=
  { self with data := fun r c =>
      if r < self.rows ∧ c < self.cols then self.data r c * s else self.data r c }

/-- `Matrix<N>::operator/=(const N& scal)`: divides every in-shape element
by the scalar (C++ `int` division truncates toward zero: `Int.tdiv`);
deliberately no zero-divisor check. -/
def divScalarAssign (self : Matrix) (s : Int) : Matrix :=
  { self with data := fun r c =>
      if r < self.rows ∧ c < self.cols then Int.tdiv (self.data r c) s
      else self.data r c }

/-- The inner loop of `operator*=(const Matrix&)`:
`sum = N(); for i in [0, _cols): sum += _matrix[r][i] * m._matrix[i][c]`,
with `N()` the value-initialized `int`, i.e. `0`. -/
def dotProd (self m : Matrix) (r c : Nat) : Int :=
  (List.range self.cols).foldl (fun sum i => sum + self.data r i * m.data i c) 0

/-- `Matrix<N>::operator*=(const Matrix& m)`: throws when
`_cols != m._rows`.  It then constructs `Matrix<N> result(_rows, m._cols)`;
the only viable two-argument constructor is `Matrix(uint size, const N& fill)`,
so `result` is a SQUARE `_rows × _rows` matrix filled with the value
`m._cols` (converted to `int`) — not a `_rows × m._cols` matrix.  The loops
then write `result._matrix[r][c]` for `r < _rows`, `c < m._cols`: when
`0 < _rows ∧ _rows < m._cols` this writes past a row of length `_rows`
(undefined behaviour).  Otherwise the dot products land in columns
`c < m._cols`, the fill `m._cols` stays in columns `m._cols ≤ c < _rows`,
and the receiver is replaced via `*this = result`. -/
def matMulAssign (self m : Matrix) : Matrix × Option MErr :=
  if self.cols ≠ m.rows then (self, some .dimensionMismatch)
  else if 0 < self.rows ∧ self.rows < m.cols then (self, some .undefinedBehavior)
  else
    (massign self
      { mkFillSq self.rows (Int.ofNat m.cols) with
        data := fun r c =>
          if r < self.rows ∧ c < m.cols then dotProd self m r c
          else Int.ofNat m.cols },
     none)

/-- `operator+(Matrix<N> lhs, const Matrix<N>& rhs)`: `lhs` is a by-value
copy (the copy constructor duplicates shape, `_size` and the in-shape
elements, which under this representation is the identity); then
`lhs += rhs; return lhs;` — a thrown exception propagates. -/
def opAdd (lhs rhs : Matrix) : Except MErr Matrix :=
  match addAssign lhs rhs with
  | (l, none) => .ok l
  | (_, some e) => .error e

/-- `operator-(Matrix<N> lhs, const Matrix<N>& rhs)`: `lhs -= rhs; return lhs;`. -/
def opSub (lhs rhs : Matrix) : Except MErr Matrix :=
  match subAssign lhs rhs with
  | (l, none) => .ok l
  | (_, some e) => .error e

/-- `operator*(Matrix<N> lhs, const N& scal)`: `lhs *= scal; return lhs;`. -/
def opMulScalar (lhs : Matrix) (s : Int) : Matrix :=
  mulScalarAssign lhs s

/-- `operator*(const N& scal, Matrix<N> rhs)`: `return rhs * scal;`. -/
def opMulScalarL (s : Int) (rhs : Matrix) : Matrix :=
  opMulScalar rhs s

/-- `operator/(Matrix<N> lhs, const N& rhs)`: `lhs /= rhs; return lhs;`. -/
def opDiv (lhs : Matrix) (s : Int) : Matrix :=
  divScalarAssign lhs s

/-- `operator*(Matrix<N> lhs, const Matrix<N>& rhs)`:
`lhs *= rhs; return rhs;` — the source returns `rhs`, the right-hand
operand, discarding the computed `lhs` (Matrix.hpp line 490). -/
def opMulMatrix (lhs rhs : Matrix) : Except MErr Matrix :=
  match matMulAssign lhs rhs with
  | (_, none) => .ok rhs
  | (_, some e) => .error e

/-- Observable equality of two matrices: same shape and same elements at
every in-shape position (out-of-shape values of `data` are junk). -/
def Eqv (A B : Matrix) : Prop :=
  A.rows = B.rows ∧ A.cols = B.cols ∧
    ∀ r < A.rows, ∀ c < A.cols, A.data r c = B.data r c

instance (A B : Matrix) : Decidable (Eqv A B) := by
  unfold Eqv; exact inferInstance

/-- The documented representation invariant `size() == rows() * cols()`. -/
def Inv (m : Matrix) : Prop :=
  m.size = m.rows * m.cols

instance (m : Matrix) : Decidable (Inv m) := by
  unfold Inv; exact inferInstance

/-- The spec's concrete scenario matrix `A = [[1,2],[2,3]]`. -/
def wA : Matrix :=
  ⟨2, 2, 4, fun r c => if r = 0 then if c = 0 then 1 else 2
                       else if c = 0 then 2 else 3⟩

/-- The spec's concrete scenario matrix `B = [[4,3],[3,2]]`. -/
def wB : Matrix :=
  ⟨2, 2, 4, fun r c => if r = 0 then if c = 0 then 4 else 3
                       else if c = 0 then 3 else 2⟩

/-- Composing a fallible result with `at`. -/
def atE (x : Except MErr Matrix) (r c : Nat) : Except MErr Int :=
  x.bind fun M => M.at' r c

/-- Whether an `at`-style call failed with one of the two out-of-range
errors. -/
def failsOutOfRange (x : Except MErr Int) : Bool :=
  match x with
  | .error e => e.isOutOfRange
  | .ok _ => false

/-! ## Theorems about the claims -/

/-- C1: the claim says that after `A *= B` (with `A.cols == B.rows`) the
receiver has shape `(old A.rows, B.cols)` and holds the matrix product.
On the code this fails: with `A` the 2×2 identity and `B` the 2×1 column
`[[5],[7]]`, the call succeeds (no exception, no out-of-bounds access)
but leaves `A` as the 2×2 matrix `[[5,1],[7,1]]` — `result` was built by
the square `Matrix(uint, const N&)` constructor as a 2×2 matrix filled
with `B.cols = 1`, so `A.cols` is `2`, not `B.cols = 1`, and a fill
column survives at `c = 1`. -/
theorem c1_matMulAssign_shape_bug :
    (matMulAssign ⟨2, 2, 4, fun r c => if r = c then 1 else 0⟩
        ⟨2, 1, 2, fun r _ => if r = 0 then 5 else 7⟩).2 = none ∧
    (⟨2, 1, 2, fun r _ => if r = 0 then 5 else 7⟩ : Matrix).cols = 1 ∧
    (matMulAssign ⟨2, 2, 4, fun r c => if r = c then 1 else 0⟩
        ⟨2, 1, 2, fun r _ => if r = 0 then 5 else 7⟩).1.cols = 2 ∧
    (matMulAssign ⟨2, 2, 4, fun r c => if r = c then 1 else 0⟩
        ⟨2, 1, 2, fun r _ => if r = 0 then 5 else 7⟩).1.at' 0 0 = .ok 5 ∧
    (matMulAssign ⟨2, 2, 4, fun r c => if r = c then 1 else 0⟩
        ⟨2, 1, 2, fun r _ => if r = 0 then 5 else 7⟩).1.at' 1 0 = .ok 7 ∧
    (matMulAssign ⟨2, 2, 4, fun r c => if r = c then 1 else 0⟩
        ⟨2, 1, 2, fun r _ => if r = 0 then 5 else 7⟩).1.at' 0 1 = .ok 1 := by
  decide

/-- C2: the claim says `A * B` returns the copy of `A` after `A *= B`.
The code returns `rhs` instead: with the 1×1 matrices `A = [[2]]`,
`B = [[3]]`, `A * B` evaluates to `[[3]]` (the right operand), while the
copy-then-compound-assign computation it discards yields `[[6]]`. -/
theorem c2_opMulMatrix_returns_rhs :
    atE (opMulMatrix ⟨1, 1, 1, fun _ _ => 2⟩ ⟨1, 1, 1, fun _ _ => 3⟩) 0 0 = .ok 3 ∧
    (matMulAssign ⟨1, 1, 1, fun _ _ => 2⟩ ⟨1, 1, 1, fun _ _ => 3⟩).2 = none ∧
    (matMulAssign ⟨1, 1, 1, fun _ _ => 2⟩ ⟨1, 1, 1, fun _ _ => 3⟩).1.at' 0 0 = .ok 6 := by
  decide

/-- C3: the claim says `+=` rejects every shape mismatch, including a
mismatch in only one dimension.  The older header revision's `operator+=`
guards with `&&`: on `A = [[0]]` (1×1) and `B = [[0,0]]` (1×2) — equal
row counts, unequal column counts — it raises nothing and performs the
element-wise addition over `A`'s shape (all reads in bounds here), while
the current revision's `operator+=` throws as the claim demands. -/
theorem c3_old_addAssign_misses_mismatch :
    (mkFill 1 1 (0 : Int)).cols ≠ (mkFill 1 2 (0 : Int)).cols ∧
    (addAssignOld (mkFill 1 1 0) (mkFill 1 2 0)).2 = none ∧
    (addAssign (mkFill 1 1 0) (mkFill 1 2 0)).2 = some .shapeMismatch := by
  decide

/-- C4: `at(r, c)` and `set(r, c, val)` fail with an out-of-range error
exactly when `r ≥ rows` or `c ≥ cols`; otherwise `at` returns the stored
element and `set` succeeds. -/
theorem c4_at_set_bounds (M : Matrix) (r c : Nat) (v : Int) :
    (failsOutOfRange (M.at' r c) = true ↔ (M.rows ≤ r ∨ M.cols ≤ c)) ∧
    ((∃ e, (M.set r c v).2 = some e ∧ e.isOutOfRange = true) ↔
        (M.rows ≤ r ∨ M.cols ≤ c)) ∧
    (r < M.rows → c < M.cols →
        M.at' r c = .ok (M.data r c) ∧ (M.set r c v).2 = none) := by
  refine ⟨?_, ?_, fun hr hc => ?_⟩
  · unfold Matrix.at' failsOutOfRange MErr.isOutOfRange
    split_ifs with h1 h2 <;> simp <;> omega
  · unfold Matrix.set MErr.isOutOfRange
    split_ifs with h1 h2 <;> simp <;> omega
  · unfold Matrix.at' Matrix.set
    rw [if_neg (Nat.not_le.mpr hr), if_neg (Nat.not_le.mpr hc),
      if_neg (Nat.not_le.mpr hr), if_neg (Nat.not_le.mpr hc)]
    exact ⟨rfl, rfl⟩

/-- Witness for C4 on the spec's 3×2 example: `at(3,0)` and `at(0,2)` fail
with `OutOfRange`, `at(2,1)` succeeds and `set(2,1,·)` succeeds. -/
theorem c4_witness :
    failsOutOfRange ((mkFill 3 2 (0 : Int)).at' 3 0) = true ∧
    failsOutOfRange ((mkFill 3 2 (0 : Int)).at' 0 2) = true ∧
    (mkFill 3 2 (0 : Int)).at' 2 1 = .ok ((mkFill 3 2 (0 : Int)).data 2 1) ∧
    ((mkFill 3 2 (0 : Int)).set 2 1 9).2 = none :=
  ⟨(c4_at_set_bounds (mkFill 3 2 0) 3 0 9).1.mpr (by decide),
   (c4_at_set_bounds (mkFill 3 2 0) 0 2 9).1.mpr (by decide),
   ((c4_at_set_bounds (mkFill 3 2 0) 2 1 9).2.2 (by decide) (by decide)).1,
   ((c4_at_set_bounds (mkFill 3 2 0) 2 1 9).2.2 (by decide) (by decide)).2⟩

/-- C5: a rejected operation (`set` with an out-of-range index, `+=`/`-=`
with a shape mismatch, matrix `*=` with an inner-dimension mismatch)
leaves the receiver completely unchanged: the checks run before any
element is written. -/
theorem c5_rejected_ops_leave_receiver (A B : Matrix) (r c : Nat) (v : Int) :
    ((A.set r c v).2.isSome = true → (A.set r c v).1 = A) ∧
    ((addAssign A B).2.isSome = true → (addAssign A B).1 = A) ∧
    ((subAssign A B).2.isSome = true → (subAssign A B).1 = A) ∧
    ((matMulAssign A B).2 = some .dimensionMismatch → (matMulAssign A B).1 = A) := by
  refine ⟨?_, ?_, ?_, ?_⟩
  · unfold Matrix.set
    split_ifs <;> simp
  · unfold addAssign
    split_ifs <;> simp
  · unfold subAssign
    split_ifs <;> simp
  · unfold matMulAssign
    split_ifs <;> simp

/-- Witness for C5: an out-of-range `set`, a mismatched `+=` and a
mismatched matrix `*=` all hand back the untouched receiver. -/
theorem c5_witness :
    ((mkFill 2 2 (0 : Int)).set 5 0 1).1 = mkFill 2 2 (0 : Int) ∧
    (addAssign (mkFill 2 2 (0 : Int)) (mkFill 3 3 0)).1 = mkFill 2 2 (0 : Int) ∧
    (matMulAssign (mkFill 2 2 (0 : Int)) (mkFill 3 3 0)).1 = mkFill 2 2 (0 : Int) :=
  ⟨(c5_rejected_ops_leave_receiver (mkFill 2 2 0) (mkFill 3 3 0) 5 0 1).1 (by decide),
   (c5_rejected_ops_leave_receiver (mkFill 2 2 0) (mkFill 3 3 0) 5 0 1).2.1 (by decide),
   (c5_rejected_ops_leave_receiver (mkFill 2 2 0) (mkFill 3 3 0) 5 0 1).2.2.2 (by decide)⟩

/-- C7: `Matrix(rows, cols, fill)` yields `shape() == (rows, cols)`,
`size() == rows*cols` and every in-shape element equal to `fill`; the
square constructor delegates to `Matrix(size, size, fill)`. -/
theorem c7_constructor_fill (n m : Nat) (f : Int) (r c : Nat) :
    shape (mkFill n m f) = (n, m) ∧
    (mkFill n m f).size = n * m ∧
    (r < n → c < m → (mkFill n m f).at' r c = .ok f) ∧
    mkFillSq n f = mkFill n n f := by
  refine ⟨rfl, rfl, fun hr hc => ?_, rfl⟩
  unfold Matrix.at'
  have h1 : ¬ (mkFill n m f).rows ≤ r := Nat.not_le.mpr hr
  have h2 : ¬ (mkFill n m f).cols ≤ c := Nat.not_le.mpr hc
  rw [if_neg h1, if_neg h2]
  rfl

/-- Witness for C7: a 3×2 matrix filled with `5` reads back `5` at `(2,1)`. -/
theorem c7_witness : (mkFill 3 2 (5 : Int)).at' 2 1 = .ok 5 :=
  (c7_constructor_fill 3 2 5 2 1).2.2.1 (by decide) (by decide)

/-- C10: after an in-bounds `set(r, c, v)` the call succeeds, `at(r, c)`
returns `v`, every other position reads exactly as before, and `rows`,
`cols`, `size` are unchanged. -/
theorem c10_set_frame (M : Matrix) (r c : Nat) (v : Int)
    (hr : r < M.rows) (hc : c < M.cols) :
    (M.set r c v).2 = none ∧
    ((M.set r c v).1).at' r c = .ok v ∧
    (∀ r' c', (r' ≠ r ∨ c' ≠ c) → ((M.set r c v).1).at' r' c' = M.at' r' c') ∧
    ((M.set r c v).1).rows = M.rows ∧
    ((M.set r c v).1).cols = M.cols ∧
    ((M.set r c v).1).size = M.size := by
  have hset : M.set r c v =
      ({ M with data := fun r' c' => if r' = r ∧ c' = c then v else M.data r' c' },
       none) := by
    unfold Matrix.set
    rw [if_neg (Nat.not_le.mpr hr), if_neg (Nat.not_le.mpr hc)]
  rw [hset]
  refine ⟨rfl, ?_, ?_, rfl, rfl, rfl⟩
  · unfold Matrix.at'
    rw [if_neg (Nat.not_le.mpr hr), if_neg (Nat.not_le.mpr hc)]
    show Except.ok (if r = r ∧ c = c then v else M.data r c) = Except.ok v
    rw [if_pos ⟨rfl, rfl⟩]
  · intro r' c' hne
    unfold Matrix.at'
    by_cases h1 : M.rows ≤ r'
    · rw [if_pos h1, if_pos h1]
    · rw [if_neg h1, if_neg h1]
      by_cases h2 : M.cols ≤ c'
      · rw [if_pos h2, if_pos h2]
      · rw [if_neg h2, if_neg h2]
        show Except.ok (if r' = r ∧ c' = c then v else M.data r' c') =
          Except.ok (M.data r' c')
        rw [if_neg (by tauto)]

/-- Observable equality is reflexive. -/
lemma eqv_refl (A : Matrix) : Eqv A A :=
  ⟨rfl, rfl, fun _ _ _ _ => rfl⟩

/-- Behaviour of `T()` on a matrix with both dimensions positive: the
result is `cols × rows` and holds the transposed elements. -/
lemma T_spec (A : Matrix) (h1 : 0 < A.rows) (h2 : 0 < A.cols) :
    (T A).rows = A.cols ∧ (T A).cols = A.rows ∧
      ∀ i < A.cols, ∀ j < A.rows, (T A).data i j = A.data j i := by
  unfold T massign
  split_ifs with hz hsq
  · exact absurd hz (by omega)
  · have hsq' : A.rows = A.cols := hsq.1
    refine ⟨hsq', hsq'.symm, fun i hi j hj => ?_⟩
    show (if i < A.rows ∧ j < A.cols then
            (if i < A.cols ∧ j < A.rows then A.data j i else 0)
          else A.data i j) = A.data j i
    rw [if_pos ⟨by omega, by omega⟩, if_pos ⟨hi, hj⟩]
  · refine ⟨rfl, rfl, fun i hi j hj => ?_⟩
    show (if i < A.cols ∧ j < A.rows then
            (if i < A.cols ∧ j < A.rows then A.data j i else 0)
          else 0) = A.data j i
    rw [if_pos ⟨hi, hj⟩, if_pos ⟨hi, hj⟩]

/-- C6: transposing twice restores the matrix (shape and elements) for
every shape including zero-sized; one `T()` is a no-op on a zero-sized
matrix and otherwise yields the `cols × rows` transpose. -/
theorem c6_transpose_involution (A : Matrix) :
    Eqv (T (T A)) A ∧
    ((A.rows = 0 ∨ A.cols = 0) → T A = A) ∧
    (0 < A.rows → 0 < A.cols →
      (T A).rows = A.cols ∧ (T A).cols = A.rows ∧
      ∀ r < A.rows, ∀ c < A.cols, (T A).data c r = A.data r c) := by
  have hnoop : (A.rows = 0 ∨ A.cols = 0) → T A = A := by
    intro h; unfold T; rw [if_pos h]
  refine ⟨?_, hnoop, fun h1 h2 => ⟨(T_spec A h1 h2).1, (T_spec A h1 h2).2.1,
    fun r hrr c hcc => (T_spec A h1 h2).2.2 c hcc r hrr⟩⟩
  by_cases hz : A.rows = 0 ∨ A.cols = 0
  · rw [hnoop hz, hnoop hz]; exact eqv_refl A
  · have h1 : 0 < A.rows := Nat.pos_of_ne_zero fun h => hz (Or.inl h)
    have h2 : 0 < A.cols := Nat.pos_of_ne_zero fun h => hz (Or.inr h)
    obtain ⟨e1, e2, e3⟩ := T_spec A h1 h2
    have h3 : 0 < (T A).rows := by omega
    have h4 : 0 < (T A).cols := by omega
    obtain ⟨f1, f2, f3⟩ := T_spec (T A) h3 h4
    refine ⟨by omega, by omega, fun r hrr c hcc => ?_⟩
    have hrA : r < A.rows := by omega
    have hcA : c < A.cols := by omega
    calc (T (T A)).data r c = (T A).data c r := f3 r (by omega) c (by omega)
      _ = A.data r c := e3 c hcA r hrA

/-- Witness for C6: the double transpose of a concrete 2×3 matrix is the
matrix itself, and a single transpose is 3×2. -/
theorem c6_witness :
    Eqv (T (T (mkFill 2 3 (7 : Int)))) (mkFill 2 3 (7 : Int)) ∧
    (T (mkFill 2 3 (7 : Int))).rows = (mkFill 2 3 (7 : Int)).cols :=
  ⟨(c6_transpose_involution (mkFill 2 3 7)).1,
   ((c6_transpose_involution (mkFill 2 3 7)).2.2 (by decide) (by decide)).1⟩

/-- When the shapes agree, `operator+=` takes the element-wise branch. -/
lemma addAssign_ok (A B : Matrix) (hr : B.rows = A.rows) (hc : B.cols = A.cols) :
    addAssign A B =
      ({ A with data := fun r c =>
          if r < A.rows ∧ c < A.cols then A.data r c + B.data r c
          else A.data r c }, none) := by
  unfold addAssign
  rw [if_neg (by omega)]

/-- When the shapes agree, `operator-=` takes the element-wise branch. -/
lemma subAssign_ok (A B : Matrix) (hr : B.rows = A.rows) (hc : B.cols = A.cols) :
    subAssign A B =
      ({ A with data := fun r c =>
          if r < A.rows ∧ c < A.cols then A.data r c - B.data r c
          else A.data r c }, none) := by
  unfold subAssign
  rw [if_neg (by omega)]

/-- C8: for equally shaped integer matrices, `A + B` succeeds with the
element-wise sum `S`, `S - B` succeeds and equals `A` element-wise, and
`A + B` equals `B + A` element-wise. -/
theorem c8_add_sub_comm (A B : Matrix) (hr : A.rows = B.rows) (hc : A.cols = B.cols) :
    opAdd A B = .ok (addAssign A B).1 ∧
    opSub (addAssign A B).1 B = .ok (subAssign (addAssign A B).1 B).1 ∧
    Eqv (subAssign (addAssign A B).1 B).1 A ∧
    opAdd B A = .ok (addAssign B A).1 ∧
    Eqv (addAssign A B).1 (addAssign B A).1 := by
  have hAB := addAssign_ok A B hr.symm hc.symm
  have hBA := addAssign_ok B A hr hc
  have hS := subAssign_ok
    { rows := A.rows, cols := A.cols, size := A.size,
      data := fun r c =>
        if r < A.rows ∧ c < A.cols then A.data r c + B.data r c else A.data r c }
    B hr.symm hc.symm
  refine ⟨?_, ?_, ?_, ?_, ?_⟩
  · unfold opAdd
    rw [hAB]
  · unfold opSub
    rw [hAB]
    dsimp only
    rw [hS]
  · rw [hAB]
    dsimp only
    rw [hS]
    refine ⟨rfl, rfl, fun r hrr c hcc => ?_⟩
    have hrr' : r < A.rows := hrr
    have hcc' : c < A.cols := hcc
    show (if r < A.rows ∧ c < A.cols then
            (if r < A.rows ∧ c < A.cols then A.data r c + B.data r c else A.data r c)
              - B.data r c
          else
            (if r < A.rows ∧ c < A.cols then A.data r c + B.data r c else A.data r c))
        = A.data r c
    rw [if_pos ⟨hrr', hcc'⟩, if_pos ⟨hrr', hcc'⟩]
    omega
  · unfold opAdd
    rw [hBA]
  · rw [hAB, hBA]
    refine ⟨hr, hc, fun r hrr c hcc => ?_⟩
    have hrr' : r < A.rows := hrr
    have hcc' : c < A.cols := hcc
    show (if r < A.rows ∧ c < A.cols then A.data r c + B.data r c else A.data r c)
        = (if r < B.rows ∧ c < B.cols then B.data r c + A.data r c else B.data r c)
    rw [if_pos ⟨hrr', hcc'⟩, if_pos ⟨by omega, by omega⟩]
    omega

/-- Witness for C8 on the spec's concrete pair `A = [[1,2],[2,3]]`,
`B = [[4,3],[3,2]]`: `(A + B) - B` equals `A` and `A + B` equals `B + A`. -/
theorem c8_witness :
    Eqv (subAssign (addAssign wA wB).1 wB).1 wA ∧
    Eqv (addAssign wA wB).1 (addAssign wB wA).1 :=
  ⟨(c8_add_sub_comm wA wB rfl rfl).2.2.1,
   (c8_add_sub_comm wA wB rfl rfl).2.2.2.2⟩

/-- Copy-assignment preserves the `size` invariant (both operands
satisfying it). -/
lemma inv_massign {A B : Matrix} (hA : Inv A) (hB : Inv B) : Inv (massign A B) := by
  unfold massign
  split_ifs with h
  · exact hA
  · exact hB

/-- Transposition preserves the `size` invariant. -/
lemma inv_T {A : Matrix} (hA : Inv A) : Inv (T A) := by
  unfold T
  split_ifs with h
  · exact hA
  · exact inv_massign hA rfl

/-- C9: `size == rows * cols` holds for freshly constructed matrices and
is preserved by `set`, `T`, copy-assignment, `+=`, `-=`, scalar `*=` and
`/=`, and matrix `*=` — so it holds after any sequence of these
operations. -/
theorem c9_size_invariant (A B : Matrix) (n m : Nat) (f s v : Int) (r c : Nat)
    (hA : Inv A) (hB : Inv B) :
    Inv (mkFill n m f) ∧ Inv (mkFillSq n f) ∧
    Inv ((A.set r c v).1) ∧ Inv (T A) ∧ Inv (massign A B) ∧
    Inv ((addAssign A B).1) ∧ Inv ((subAssign A B).1) ∧
    Inv (mulScalarAssign A s) ∧ Inv (divScalarAssign A s) ∧
    Inv ((matMulAssign A B).1) := by
  refine ⟨rfl, rfl, ?_, inv_T hA, inv_massign hA hB, ?_, ?_, hA, hA, ?_⟩
  · unfold Matrix.set
    split_ifs <;> exact hA
  · unfold addAssign
    split_ifs <;> exact hA
  · unfold subAssign
    split_ifs <;> exact hA
  · unfold matMulAssign
    split_ifs with g1 g2
    · exact hA
    · exact hA
    · exact inv_massign hA rfl

/-- Witness for C9: the invariant after a successful `+=` and after a
transpose of a concrete 2×3 matrix. -/
theorem c9_witness :
    Inv ((addAssign (mkFill 2 3 (0 : Int)) (mkFill 2 3 0)).1) ∧
    Inv (T (mkFill 2 3 (0 : Int))) :=
  ⟨(c9_size_invariant (mkFill 2 3 0) (mkFill 2 3 0) 1 1 0 2 4 0 0
      (by decide) (by decide)).2.2.2.2.2.1,
   (c9_size_invariant (mkFill 2 3 0) (mkFill 2 3 0) 1 1 0 2 4 0 0
      (by decide) (by decide)).2.2.2.1⟩

/-- Witness for C10: setting `(0,1)` to `9` in a 2×2 zero matrix succeeds,
reads back `9` there, and leaves `(1,0)` reading as before. -/
theorem c10_witness :
    ((mkFill 2 2 (0 : Int)).set 0 1 9).2 = none ∧
    (((mkFill 2 2 (0 : Int)).set 0 1 9).1).at' 0 1 = .ok 9 ∧
    (((mkFill 2 2 (0 : Int)).set 0 1 9).1).at' 1 0 = (mkFill 2 2 (0 : Int)).at' 1 0 :=
  ⟨(c10_set_frame (mkFill 2 2 0) 0 1 9 (by decide) (by decide)).1,
   (c10_set_frame (mkFill 2 2 0) 0 1 9 (by decide) (by decide)).2.1,
   (c10_set_frame (mkFill 2 2 0) 0 1 9 (by decide) (by decide)).2.2.1 1 0
     (Or.inl (by decide))⟩

end math
